import Mathlib

/-!
Verification development for the medical_copilot orchestration graph.

The definitions below are a shallow embedding of the LangGraph agent in
src/agents (graph.py, state.py, nodes/triage.py, nodes/data_fetcher.py,
nodes/retrieval.py, nodes/grader.py, nodes/reasoning.py,
nodes/tool_executor.py) together with the collaborator shims in src/tools
(vector_store.py, patient_records_tool.py, clinical_tools.py).

External collaborators (the OpenAI classifier calls, the Qdrant index, the
FHIR record store, the RxNorm API) are modelled as oracles: each node that
invokes one takes the collaborator response as an explicit argument, with
Except used for calls that can raise.  State-channel semantics follow the
framework: StateGraph(AgentState) creates one channel per key declared in
the AgentState TypedDict of state.py, the messages channel concatenates
updates (operator.add reducer), every other declared channel is
last-write-wins when its key is present in a node update, and keys of a
node update that are not declared in the schema (search_query,
triage_intent, grading_status, retrieval_retries) are silently discarded,
so a state.get on those keys always yields its default.
-/

namespace MedCopilot

/-- Python truthiness restricted to optional strings: None and the empty
string are falsy, every other string truthy. -/
def pyTruthy : Option String → Bool
  | none => false
  | some s => !s.isEmpty

/-- Rendering of an optional string inside a Python f-string: None prints
as the four characters None. -/
def pyShow : Option String → String
  | none => "None"
  | some s => s

/-- One transcript message: a role tag, text content, and whether the
message carries pending tool calls (the attribute inspected by
check_tool_calls in graph.py). -/
structure Msg where
  role : String
  content : String
  hasToolCalls : Bool := false
deriving Repr, DecidableEq

/-- One retrieved guideline passage as assembled by VectorStore.search in
vector_store.py: payload content, payload source, and the hit score (kept
opaque as an integer stand-in, no claim computes on it). -/
structure Doc where
  content : String
  source : String
  score : Int := 0
deriving Repr, DecidableEq

/-- The graph state: exactly the channels the AgentState TypedDict of
state.py declares and some node or edge predicate reads or writes
(messages, patient_id, patient_data, retrieved_docs).  The remaining
declared channels (initial_assessment, treatment_plan, critique,
confidence_score, needs_revision) are touched by no node and no edge and
are omitted.  The keys the nodes also return (search_query,
triage_intent, grading_status, retrieval_retries) are NOT channels: the
framework discards writes to undeclared keys, so they can never be
present in the state.  A value of none means the key is absent or holds
Python None; reads in the source go through state.get with a default. -/
structure AgentState where
  messages : List Msg := []
  patient_id : Option String := none
  patient_data : Option String := none
  retrieved_docs : Option (List Doc) := none
deriving Repr, DecidableEq

/-- The dict a node returns, before the framework maps it onto the
declared channels: all keys any node writes, including the four that are
not in the state schema.  For each non-message field, none means the key
is absent from the returned dict; for the fields whose written value can
itself be Python None (patient_id, patient_data, search_query) the
present value is again an Option. -/
structure StateUpdate where
  messages : List Msg := []
  patient_id : Option (Option String) := none
  patient_data : Option (Option String) := none
  retrieved_docs : Option (List Doc) := none
  search_query : Option (Option String) := none
  triage_intent : Option String := none
  grading_status : Option String := none
  retrieval_retries : Option Nat := none
deriving Repr, DecidableEq

/-- Channel merge: the framework maps the returned dict onto the
declared channels only.  messages concatenates after the existing
transcript (operator.add reducer declared in state.py); each other
declared channel is overwritten when its key is present
(last-write-wins); the undeclared keys of the update (search_query,
triage_intent, grading_status, retrieval_retries) are discarded and
never reach the state. -/
def applyUpdate (s : AgentState) (u : StateUpdate) : AgentState where
  messages := s.messages ++ u.messages
  patient_id := u.patient_id.getD s.patient_id
  patient_data := u.patient_data.getD s.patient_data
  retrieved_docs := match u.retrieved_docs with
    | none => s.retrieved_docs
    | some d => some d

/-- state.get("grading_status"): grading_status is not a declared
channel and every write to it is discarded, so the lookup never finds
the key and yields None. -/
def get_grading_status (_s : AgentState) : Option String := none

/-- state.get("retrieval_retries", 0): retrieval_retries is not a
declared channel and every write to it is discarded, so the lookup
never finds the key and yields the default 0. -/
def get_retrieval_retries (_s : AgentState) : Nat := 0

/-- The Python exceptions the embedding distinguishes. -/
inductive PyErr
  | typeError
  | unboundLocal
deriving Repr, DecidableEq

/-- Structured output of the triage classifier (class TriageOutput in
triage.py): optional patient id, intent summary, ambiguity flag. -/
structure TriageOutput where
  patient_id : Option String
  intent : String
  missing_info : Bool
deriving Repr, DecidableEq

/-- triage_node from nodes/triage.py.  On classifier success it writes
patient_id (keeping a previous truthy id when the extracted one is
falsy), triage_intent, and one system message; the missing_info flag of
the structured output is discarded.  On classifier failure the except
block assigns only patient_id and triage_msg, and the return dict then
reads the local variable intent, which was never assigned on that path,
so the node raises UnboundLocalError instead of returning. -/
def triage_node (s : AgentState) (llm : Except Unit TriageOutput) :
    Except PyErr StateUpdate :=
  match llm with
  | .ok r =>
      .ok { patient_id := some (if pyTruthy r.patient_id then r.patient_id
                                else s.patient_id),
            triage_intent := some r.intent,
            messages := [⟨"system",
              "Triage Analysis: Intent=\x27" ++ r.intent ++
                "\x27. Patient ID=\x27" ++ pyShow r.patient_id ++ "\x27",
              false⟩] }
  | .error _ => .error .unboundLocal

/-- data_fetcher_node from nodes/data_fetcher.py: with a falsy patient id
it only appends a clarification message (dead code under the graph
routing); otherwise it stores the fetched record text into patient_data
and appends a notification message.  The record text is the collaborator
response. -/
def data_fetcher_node (s : AgentState) (fetched : String) : StateUpdate :=
  if !pyTruthy s.patient_id then
    { messages := [⟨"assistant",
        "I need a Patient ID to proceed. Please provide one.", false⟩] }
  else
    { patient_data := some (some fetched),
      messages := [⟨"system",
        "System Notification: Successfully fetched FHIR data for patient "
          ++ pyShow s.patient_id, false⟩] }

/-- The named parameters of VectorStore.search in vector_store.py
(besides self): query and limit only. -/
def searchParams : List String := ["query", "limit"]

/-- The keyword arguments passed at the call site in retrieval_node:
query, limit, and condition_filter. -/
def searchCallKeywords : List String := ["query", "limit", "condition_filter"]

/-- Body of VectorStore.search: embed the query and ask the index for the
top hits.  The index oracle stands for query_points plus payload
extraction; the method has no filter parameter and applies no filter. -/
def searchBody (index : Option String → Nat → List Doc)
    (query : Option String) (lim : Nat) : List Doc :=
  index query lim

/-- The call vector_store.search(query=.., limit=4, condition_filter=..)
as executed by Python: keyword binding succeeds only if every keyword
names a declared parameter, otherwise the call raises TypeError before
the method body runs. -/
def searchCall (index : Option String → Nat → List Doc)
    (query : Option String) (lim : Nat) (_filter : Option String) :
    Except PyErr (List Doc) :=
  if searchCallKeywords.all (fun k => searchParams.contains k) then
    .ok (searchBody index query lim)
  else
    .error .typeError

/-- Parsed JSON of the query-generation step in retrieval_node: the two
keys read with search_params.get, each possibly absent. -/
structure QueryGenOut where
  condition_filter : Option String
  search_query : Option String
deriving Repr, DecidableEq

/-- retrieval_node from nodes/retrieval.py: query generation falls back to
the fixed query on error; the search call is guarded by try/except with
an empty result list on failure; the update replaces retrieved_docs,
stores search_query, increments retrieval_retries (read with default 0),
and appends one system message. -/
def retrieval_node (s : AgentState) (llm : Except Unit QueryGenOut)
    (index : Option String → Nat → List Doc) : StateUpdate :=
  let p := match llm with
    | .ok sp => (sp.condition_filter, sp.search_query)
    | .error _ => ((none : Option String), (some "treatment guidelines" : Option String))
  let results := match searchCall index p.2 4 p.1 with
    | .ok r => r
    | .error _ => []
  { retrieved_docs := some results,
    search_query := some p.2,
    retrieval_retries := some (get_retrieval_retries s + 1),
    messages := [⟨"system",
      "Retrieved " ++ toString results.length ++ " guidelines for "
        ++ pyShow p.1 ++ ".", false⟩] }

/-- Structured output of the grading classifier (class Grade in
grader.py). -/
structure Grade where
  is_relevant : Bool
  feedback : String
deriving Repr, DecidableEq

/-- grader_node from nodes/grader.py, paired with a flag recording
whether the underlying classifier was invoked: an empty document list
short-circuits to irrelevant before any classifier call; otherwise the
verdict follows the classifier, defaulting to relevant if the call
raises. -/
def grader_node (s : AgentState) (llm : Except Unit Grade) :
    StateUpdate × Bool :=
  let docs := (s.retrieved_docs).getD []
  if docs.isEmpty then
    ({ grading_status := some "irrelevant",
       messages := [⟨"system", "Grader: No documents found.", false⟩] },
     false)
  else
    let r := match llm with
      | .ok g => (if g.is_relevant then "relevant" else "irrelevant", g.feedback)
      | .error _ => ("relevant", "Error in grading.")
    ({ grading_status := some r.1,
       messages := [⟨"system",
         "Grader: Documents are " ++ r.1 ++ ". Feedback: " ++ r.2,
         false⟩] },
     true)

/-- reasoning_node from nodes/reasoning.py: the context formatting
iterates over state.get("retrieved_docs"), raising TypeError when that
value is absent; otherwise the node appends the model response (which
may carry tool calls). -/
def reasoning_node (s : AgentState) (llm : Msg) : Except PyErr StateUpdate :=
  match s.retrieved_docs with
  | none => .error .typeError
  | some _ => .ok { messages := [llm] }

/-- tool_node from nodes/tool_executor.py: the prebuilt dispatcher
appends one tool message per requested call; the batch is the
collaborator response. -/
def tool_node (toolMsgs : List Msg) : StateUpdate :=
  { messages := toolMsgs }

/-- The graph nodes declared in build_graph (graph.py). -/
inductive Node
  | triage
  | fetch_data
  | retrieve_knowledge
  | grade_documents
  | reason
  | tools
deriving Repr, DecidableEq

/-- check_patient_id from graph.py: cached patient_data skips the fetch,
a truthy patient_id routes to fetch_data, otherwise the cycle ends
(none stands for END). -/
def check_patient_id (s : AgentState) : Option Node :=
  if pyTruthy s.patient_data then some .retrieve_knowledge
  else if pyTruthy s.patient_id then some .fetch_data
  else none

/-- check_grade from graph.py: loop back to retrieval exactly when the
grading status read from state is irrelevant and the retry counter read
from state (default 0) is below 3; otherwise proceed to reasoning.
Since neither key is a declared channel, the reads are None and 0. -/
def check_grade (s : AgentState) : Node :=
  if get_grading_status s == some "irrelevant" && get_retrieval_retries s < 3 then
    .retrieve_knowledge
  else
    .reason

/-- check_tool_calls from graph.py: route to the tool node exactly when
the last transcript message carries tool calls (the last message always
exists there, the reasoning node just appended one). -/
def check_tool_calls (s : AgentState) : Option Node :=
  match s.messages.getLast? with
  | some m => if m.hasToolCalls then some .tools else none
  | none => none

/-- All collaborator responses consumed during one processing cycle,
indexed by invocation count where a node can run several times. -/
structure CycleOracle where
  triage : Except Unit TriageOutput
  fetched : String
  queryGen : Nat → Except Unit QueryGenOut
  index : Option String → Nat → List Doc
  grade : Nat → Except Unit Grade
  reason : Nat → Msg
  toolBatch : Nat → List Msg

/-- Per-node invocation counters used to index the oracle. -/
structure Visits where
  nret : Nat := 0
  ngrade : Nat := 0
  nreason : Nat := 0
  ntools : Nat := 0
deriving Repr, DecidableEq

/-- One super-step of the compiled graph: run the node on the current
state, merge its update, and compute the next node from the edge table
of build_graph (none stands for END); a raising node propagates. -/
def stepNode (o : CycleOracle) (v : Visits) (n : Node) (s : AgentState) :
    Except PyErr (Visits × Option Node × AgentState) :=
  match n with
  | .triage =>
      match triage_node s o.triage with
      | .error e => .error e
      | .ok u =>
          let s1 := applyUpdate s u
          .ok (v, check_patient_id s1, s1)
  | .fetch_data =>
      let s1 := applyUpdate s (data_fetcher_node s o.fetched)
      .ok (v, some .retrieve_knowledge, s1)
  | .retrieve_knowledge =>
      let s1 := applyUpdate s (retrieval_node s (o.queryGen v.nret) o.index)
      .ok ({ v with nret := v.nret + 1 }, some .grade_documents, s1)
  | .grade_documents =>
      let s1 := applyUpdate s (grader_node s (o.grade v.ngrade)).1
      .ok ({ v with ngrade := v.ngrade + 1 }, some (check_grade s1), s1)
  | .reason =>
      match reasoning_node s (o.reason v.nreason) with
      | .error e => .error e
      | .ok u =>
          let s1 := applyUpdate s u
          .ok ({ v with nreason := v.nreason + 1 }, check_tool_calls s1, s1)
  | .tools =>
      let s1 := applyUpdate s (tool_node (o.toolBatch v.ntools))
      .ok ({ v with ntools := v.ntools + 1 }, some .reason, s1)

/-- Result of driving the graph: done carries the final state and the
trace of visited nodes with the state at entry to each; raised records a
propagated exception; fuelOut means the step budget ran out (the
reason-tools loop has no bound in the source). -/
inductive RunResult
  | done (final : AgentState) (trace : List (Node × AgentState))
  | raised (e : PyErr)
  | fuelOut
deriving Repr, DecidableEq

/-- Drive the graph from a node until END, an exception, or fuel
exhaustion. -/
def runFrom (o : CycleOracle) : Nat → Visits → Node → AgentState → RunResult
  | 0, _, _, _ => .fuelOut
  | fuel + 1, v, n, s =>
      match stepNode o v n s with
      | .error e => .raised e
      | .ok (v', next, s1) =>
          match next with
          | none => .done s1 [(n, s)]
          | some n' =>
              match runFrom o fuel v' n' s1 with
              | .done f tr => .done f ((n, s) :: tr)
              | r => r

/-- Admit one user message into the state, as the checkpointer merges the
input payload before the entry node runs. -/
def startCycle (s : AgentState) (userMsg : Msg) : AgentState :=
  applyUpdate s { messages := [userMsg] }

/-- One full processing cycle: merge the incoming user message and run
the graph from the triage entry point with fresh invocation counters. -/
def runCycle (o : CycleOracle) (fuel : Nat) (s : AgentState) (userMsg : Msg) :
    RunResult :=
  runFrom o fuel {} .triage (startCycle s userMsg)

/-- The state of a fresh session before any cycle: every channel unset. -/
def initState : AgentState := {}

/-- Session states reachable through completed cycles from a fresh
session, allowing any sequence of collaborator responses. -/
inductive Reachable : AgentState → Prop
  | init : Reachable initState
  | cycle {s s' : AgentState} {o : CycleOracle} {fuel : Nat} {m : Msg}
      {tr : List (Node × AgentState)} :
      Reachable s → runCycle o fuel s m = .done s' tr → Reachable s'

/-- Final state of a completed run, if it completed. -/
def finalStateOf : RunResult → Option AgentState
  | .done s _ => some s
  | _ => none

/-- Nodes visited by a completed run, in order. -/
def traceNodes : RunResult → List Node
  | .done _ tr => tr.map (·.1)
  | _ => []

/-- Whether a run completed (reached END). -/
def isDone : RunResult → Bool
  | .done _ _ => true
  | _ => false

/-! ## Patient Record Gateway (tools/patient_records_tool.py)

Each section getter issues one HTTP query (the medications getter issues
two) against the FHIR store.  A query outcome is modelled after the
branches the source distinguishes: the request raised, the response had
a non-200 status, the bundle decoded without an entry list, or the entry
list decoded into the fields the getter reads. -/

/-- Outcome of one FHIR query as the getters branch on it: raised
exception (with its rendered text), non-200 status, a 200 bundle without
an entry key, or a decoded entry list. -/
inductive FhirResp (α : Type)
  | raised (e : String)
  | notOk
  | emptyBundle
  | entries (data : α)
deriving Repr, DecidableEq

/-- Decoded fields of the Patient resource that get_patient_demographics
reads (name given and family, gender, birthDate as displayed). -/
structure DemoData where
  given : String
  family : String
  gender : String
  birthDate : String
deriving Repr, DecidableEq

/-- get_patient_demographics: placeholder on raise or non-200, formatted
demographics otherwise (the Patient endpoint returns a single resource,
so the emptyBundle case does not arise and is folded into the decoded
case by the oracle). -/
def get_patient_demographics (patient_id : String)
    (resp : FhirResp DemoData) : String :=
  match resp with
  | .raised e => "Connection failed: " ++ e
  | .notOk => "Error: Patient " ++ patient_id ++ " not found."
  | .emptyBundle => "Error: Patient " ++ patient_id ++ " not found."
  | .entries d =>
      "Patient Name: " ++ d.given ++ " " ++ d.family ++ "\nGender: "
        ++ d.gender ++ "\nDOB: " ++ d.birthDate

/-- The value rendering of one Observation entry: a valueQuantity, a
component list, or neither. -/
inductive LabValue
  | quantity (v : String)
  | components (cs : List (String × String))
  | checkReport
deriving Repr, DecidableEq

/-- One decoded Observation entry as get_patient_labs reads it. -/
structure LabEntry where
  display : String
  value : LabValue
  date : String
deriving Repr, DecidableEq

/-- Rendering of a lab value, following the valueQuantity, component and
fallback branches. -/
def renderLabValue : LabValue → String
  | .quantity v => v
  | .components cs =>
      String.intercalate ", " (cs.map (fun c => c.1 ++ ": " ++ c.2))
  | .checkReport => "Check Report"

/-- get_patient_labs: placeholder on raise, non-200 or missing entry
list; otherwise one line per observation. -/
def get_patient_labs (resp : FhirResp (List LabEntry)) : String :=
  match resp with
  | .raised e => "Error fetching labs: " ++ e
  | .notOk => "No lab results found."
  | .emptyBundle => "No recent lab results."
  | .entries es =>
      String.intercalate "\n"
        (es.map (fun e => "- " ++ e.date ++ ": " ++ e.display ++ " = "
          ++ renderLabValue e.value))

/-- get_patient_medications: two resource queries (MedicationStatement
then MedicationRequest); a raising, non-200 or entry-less response is
skipped; decoded entries contribute one tagged name each; the combined
list is deduplicated (list(set(..)) in the source, modelled as dedup
keeping first occurrences) or degrades to the no-medications
placeholder. -/
def get_patient_medications (stmt req : FhirResp (List String)) : String :=
  let collect : String → FhirResp (List String) → List String :=
    fun tag r => match r with
      | .entries names => names.map (fun n => "[" ++ tag ++ "] " ++ n)
      | _ => []
  let meds := collect "MedicationStatement" stmt ++ collect "MedicationRequest" req
  if meds.isEmpty then "No active medications found on file."
  else "Current Medications:\n" ++ String.intercalate "\n" meds.dedup

/-- One decoded Condition entry: display name and clinical status code. -/
structure CondEntry where
  display : String
  status : String
deriving Repr, DecidableEq

/-- get_patient_conditions: placeholder on raise, non-200 or missing
entry list; otherwise one line per condition. -/
def get_patient_conditions (resp : FhirResp (List CondEntry)) : String :=
  match resp with
  | .raised e => "Error fetching conditions: " ++ e
  | .notOk => "No conditions found."
  | .emptyBundle => "No active conditions."
  | .entries es =>
      String.intercalate "\n"
        (es.map (fun e => "- " ++ e.display ++ " (" ++ e.status ++ ")"))

/-- One decoded AllergyIntolerance entry: substance display and the
first reaction manifestation if present. -/
structure AllergyEntry where
  substance : String
  manifestation : Option String
deriving Repr, DecidableEq

/-- get_patient_allergies: placeholder on raise, non-200 or missing
entry list; otherwise one line per allergy with a fallback reaction. -/
def get_patient_allergies (resp : FhirResp (List AllergyEntry)) : String :=
  match resp with
  | .raised e => "Error fetching allergies: " ++ e
  | .notOk => "No allergies on file."
  | .emptyBundle => "No known allergies."
  | .entries es =>
      String.intercalate "\n"
        (es.map (fun e => "- " ++ e.substance ++ ": "
          ++ e.manifestation.getD "Unknown reaction"))

/-- The record-store responses to the up-to-five section queries of one
fetch (medications issues two sub-queries). -/
structure RecordOracle where
  demographics : FhirResp DemoData
  labs : FhirResp (List LabEntry)
  medsStatement : FhirResp (List String)
  medsRequest : FhirResp (List String)
  conditions : FhirResp (List CondEntry)
  allergies : FhirResp (List AllergyEntry)
deriving Repr, DecidableEq

/-- The sectioned f-string template returned by fetch_patient_record,
with the exact header lines and whitespace of the source. -/
def renderRecord (patient_id demographics labs meds conditions allergies :
    String) : String :=
  "\n    === PATIENT RECORD: " ++ patient_id ++ " ===\n   \n    [DEMOGRAPHICS]\n    "
    ++ demographics
    ++ "\n    \n    [RECENT LABS & VITALS]\n    "
    ++ labs
    ++ "\n    \n    [CURRENT MEDICATIONS]\n    "
    ++ meds
    ++ "\n\n    [CONDITIONS]\n    "
    ++ conditions
    ++ "\n\n    [ALLERGIES]\n    "
    ++ allergies
    ++ "\n\n    ====================================\n    "

/-- fetch_patient_record: run the five section getters and concatenate
their results into the sectioned template; total, whatever the
collaborator responses. -/
def fetch_patient_record (patient_id : String) (o : RecordOracle) : String :=
  renderRecord patient_id
    (get_patient_demographics patient_id o.demographics)
    (get_patient_labs o.labs)
    (get_patient_medications o.medsStatement o.medsRequest)
    (get_patient_conditions o.conditions)
    (get_patient_allergies o.allergies)

/-! ## Drug interaction tool (tools/clinical_tools.py) -/

/-- Outcome of one RxNorm HTTP call: raised (with rendered text) or a
decoded body. -/
inductive NetResp (α : Type)
  | raised (e : String)
  | ok (data : α)
deriving Repr, DecidableEq

/-- One decoded interaction pair: severity (as received), description
and the two concept names. -/
structure InteractionPair where
  severity : String
  description : String
  drug1 : String
  drug2 : String
deriving Repr, DecidableEq

/-- Rendering of one interaction pair: severity is lowered on decode and
uppercased for display, with the warning prefix on high or
contraindicated severities. -/
def renderInteraction (p : InteractionPair) : String :=
  let sev := p.severity.toLower
  let line := sev.toUpper ++ ": " ++ p.drug1 ++ " + " ++ p.drug2
    ++ "\n   " ++ p.description
  if sev == "high" || sev == "contraindicated" then "⚠️ " ++ line
  else "• " ++ line

/-- check_drug_interactions, paired with the number of HTTP requests it
issues.  Fewer than two drugs short-circuits to the fixed message with
no request; otherwise each name is resolved with one request (failures
and misses are skipped), and with at least two resolved ids one
interaction-list request decides the remaining branches. -/
def check_drug_interactions (medications : List String)
    (resolve : String → NetResp (Option String))
    (interactions : NetResp (List (List InteractionPair))) : String × Nat :=
  if medications.length < 2 then
    ("No interaction check needed (less than 2 drugs).", 0)
  else
    let rxcuis := (medications.filterMap (fun m =>
      match resolve m with
      | .ok (some c) => some c
      | _ => none))
    let nResolve := medications.length
    if rxcuis.length < 2 then
      ("Could not identify enough medications in RxNorm to check interactions. "
        ++ "This may happen for brand names or uncommon drugs. "
        ++ "Resolved " ++ toString rxcuis.length ++ " out of "
        ++ toString medications.length ++ " medications.", nResolve)
    else
      match interactions with
      | .raised e =>
          ("Network error while checking drug interactions: " ++ e,
           nResolve + 1)
      | .ok groups =>
          if groups.isEmpty then
            ("No drug interactions found in RxNorm database.", nResolve + 1)
          else
            let items := groups.flatten.map renderInteraction
            if items.isEmpty then
              ("No significant drug interactions found.", nResolve + 1)
            else
              (String.intercalate "\n\n" (items.take 10), nResolve + 1)

/-! ## Derived notions and concrete runs used by the statements below -/

/-- The search query the retrieval node ends up with: the generated one
on success, the fixed fallback on a query-generation error. -/
def qgQuery : Except Unit QueryGenOut → Option String
  | .ok sp => sp.search_query
  | .error _ => some "treatment guidelines"

/-- The condition filter the retrieval node ends up with. -/
def qgFilter : Except Unit QueryGenOut → Option String
  | .ok sp => sp.condition_filter
  | .error _ => none

/-- The clarification request that appears in the falsy-id branch of
data_fetcher_node, the only clarification text in the source. -/
def clarificationRequestText : String :=
  "I need a Patient ID to proceed. Please provide one."

/-- Number of retrieval-node visits recorded in a trace. -/
def retrieveCount (tr : List (Node × AgentState)) : Nat :=
  tr.countP (fun p => decide (p.1 = Node.retrieve_knowledge))

/-- The edge table of build_graph, as a function of the node just run
and the state after its update. -/
def expectedNext : Node → AgentState → Option Node
  | .triage, s1 => check_patient_id s1
  | .fetch_data, _ => some .retrieve_knowledge
  | .retrieve_knowledge, _ => some .grade_documents
  | .grade_documents, s1 => some (check_grade s1)
  | .reason, s1 => check_tool_calls s1
  | .tools, _ => some .reason

/-- Trace of a completed run (empty otherwise). -/
def traceOf : RunResult → List (Node × AgentState)
  | .done _ tr => tr
  | _ => []

/-- Transcript of the final state of a completed run. -/
def finalMessages (r : RunResult) : List Msg :=
  match finalStateOf r with
  | some s => s.messages
  | none => []

/-- Collaborator script for a concrete session: triage resolves the
test patient, query generation proposes a filtered hypertension query,
the index would answer but is never consulted, grading would approve,
and reasoning answers without tool calls. -/
def demoOracle : CycleOracle where
  triage := .ok ⟨some "test-patient-001", "Review hypertension therapy", false⟩
  fetched := "=== PATIENT RECORD: test-patient-001 ==="
  queryGen := fun _ => .ok ⟨some "Hypertension", some "hypertension treatment"⟩
  index := fun _ _ => [⟨"ACC guideline text", "acc.pdf", 1⟩]
  grade := fun _ => .ok ⟨true, "looks good"⟩
  reason := fun _ => ⟨"assistant", "Assessment, Plan, Evidence", false⟩
  toolBatch := fun _ => []

/-- The user message opening the concrete session. -/
def demoUserMsg : Msg := ⟨"user", "Review patient test-patient-001", false⟩

/-- First cycle of the concrete session from a fresh state. -/
def demoRun : RunResult := runCycle demoOracle 20 initState demoUserMsg

/-- State persisted after the first cycle. -/
def demoFinal : AgentState := (finalStateOf demoRun).getD initState

/-- Collaborator script where triage resolves no patient id. -/
def clarOracle : CycleOracle :=
  { demoOracle with triage := .ok ⟨none, "General Review", true⟩ }

/-- A cycle on a fresh session whose message names no patient. -/
def clarRun : RunResult :=
  runCycle clarOracle 20 initState ⟨"user", "What should I do?", false⟩

/-- State persisted after the no-patient cycle. -/
def clarFinal : AgentState := (finalStateOf clarRun).getD initState

/-! ## Helper lemmas -/

theorem applyUpdate_messages (s : AgentState) (u : StateUpdate) :
    (applyUpdate s u).messages = s.messages ++ u.messages := rfl

theorem applyUpdate_patient_id (s : AgentState) (u : StateUpdate) :
    (applyUpdate s u).patient_id = u.patient_id.getD s.patient_id := rfl

theorem searchCall_typeError (index : Option String → Nat → List Doc)
    (q : Option String) (lim : Nat) (f : Option String) :
    searchCall index q lim f = .error .typeError := rfl

theorem retrieval_node_eq (s : AgentState) (q : Except Unit QueryGenOut)
    (index : Option String → Nat → List Doc) :
    retrieval_node s q index =
      { retrieved_docs := some [],
        search_query := some (qgQuery q),
        retrieval_retries := some (get_retrieval_retries s + 1),
        messages := [⟨"system",
          "Retrieved " ++ toString (0 : Nat) ++ " guidelines for "
            ++ pyShow (qgFilter q) ++ ".",
          false⟩] } := by
  cases q <;> rfl

theorem triage_node_ok (s : AgentState) (r : TriageOutput) :
    triage_node s (.ok r) =
      .ok { patient_id := some (if pyTruthy r.patient_id then r.patient_id
                                else s.patient_id),
            triage_intent := some r.intent,
            messages := [⟨"system",
              "Triage Analysis: Intent=\x27" ++ r.intent ++
                "\x27. Patient ID=\x27" ++ pyShow r.patient_id ++ "\x27",
              false⟩] } := rfl

theorem grader_node_empty (s : AgentState) (g : Except Unit Grade)
    (h : (s.retrieved_docs).getD [] = []) :
    grader_node s g =
      ({ grading_status := some "irrelevant",
         messages := [⟨"system", "Grader: No documents found.", false⟩] },
       false) := by
  unfold grader_node
  simp [h]

theorem grader_node_retries (s : AgentState) (g : Except Unit Grade) :
    ((grader_node s g).1).retrieval_retries = none := by
  unfold grader_node
  by_cases h : (s.retrieved_docs.getD []).isEmpty <;> cases g <;> simp [h]

/-- Generic induction over completed runs of the graph driver. -/
theorem runFrom_rec (o : CycleOracle)
    (P : Node → AgentState → AgentState → List (Node × AgentState) → Prop)
    (hstep : ∀ v v' n s s1, stepNode o v n s = .ok (v', none, s1) →
      P n s s1 [(n, s)])
    (htrans : ∀ v v' n n' s s1 f tr, stepNode o v n s = .ok (v', some n', s1) →
      P n' s1 f tr → P n s f ((n, s) :: tr)) :
    ∀ fuel v n s f tr, runFrom o fuel v n s = .done f tr → P n s f tr := by
  intro fuel
  induction fuel with
  | zero => intro v n s f tr h; simp [runFrom] at h
  | succ fuel ih =>
      intro v n s f tr h
      rw [runFrom] at h
      cases hs : stepNode o v n s with
      | error e => rw [hs] at h; simp at h
      | ok t =>
          obtain ⟨v', nx, s1⟩ := t
          rw [hs] at h
          dsimp only at h
          cases nx with
          | none =>
              dsimp only at h
              simp at h
              obtain ⟨rfl, rfl⟩ := h
              exact hstep v v' n s _ hs
          | some n' =>
              dsimp only at h
              cases hr : runFrom o fuel v' n' s1 with
              | done f' tr' =>
                  rw [hr] at h
                  simp at h
                  obtain ⟨rfl, rfl⟩ := h
                  exact htrans v v' n n' s s1 f' tr' hs (ih v' n' s1 f' tr' hr)
              | raised e => rw [hr] at h; simp at h
              | fuelOut => rw [hr] at h; simp at h

/-- Every successful super-step appends to the transcript, never
replacing it. -/
theorem stepNode_messages (o : CycleOracle) (v : Visits) (n : Node)
    (s : AgentState) (v' : Visits) (nx : Option Node) (s1 : AgentState)
    (h : stepNode o v n s = .ok (v', nx, s1)) :
    ∃ t, s1.messages = s.messages ++ t := by
  cases n <;> dsimp only [stepNode] at h
  case triage =>
    cases htr : o.triage with
    | error e => rw [htr] at h; simp [triage_node] at h
    | ok r =>
        rw [htr, triage_node_ok] at h
        simp only [Except.ok.injEq, Prod.mk.injEq] at h
        obtain ⟨-, -, rfl⟩ := h
        exact ⟨_, rfl⟩
  case reason =>
    unfold reasoning_node at h
    cases hd : s.retrieved_docs with
    | none => rw [hd] at h; simp at h
    | some l =>
        rw [hd] at h
        simp only [Except.ok.injEq, Prod.mk.injEq] at h
        obtain ⟨-, -, rfl⟩ := h
        exact ⟨_, rfl⟩
  all_goals
    simp only [Except.ok.injEq, Prod.mk.injEq] at h
  all_goals
    obtain ⟨-, -, rfl⟩ := h
    exact ⟨_, rfl⟩

/-- The next node chosen by a super-step follows the edge table of
build_graph. -/
theorem stepNode_next (o : CycleOracle) (v : Visits) (n : Node)
    (s : AgentState) (v' : Visits) (nx : Option Node) (s1 : AgentState)
    (h : stepNode o v n s = .ok (v', nx, s1)) :
    nx = expectedNext n s1 := by
  cases n <;> dsimp only [stepNode] at h <;> dsimp only [expectedNext]
  case triage =>
    cases htr : o.triage with
    | error e => rw [htr] at h; simp [triage_node] at h
    | ok r =>
        rw [htr, triage_node_ok] at h
        simp only [Except.ok.injEq, Prod.mk.injEq] at h
        obtain ⟨-, hnx, rfl⟩ := h
        exact hnx.symm
  case reason =>
    unfold reasoning_node at h
    cases hd : s.retrieved_docs with
    | none => rw [hd] at h; simp at h
    | some l =>
        rw [hd] at h
        simp only [Except.ok.injEq, Prod.mk.injEq] at h
        obtain ⟨-, hnx, rfl⟩ := h
        exact hnx.symm
  all_goals
    simp only [Except.ok.injEq, Prod.mk.injEq] at h
  all_goals
    obtain ⟨-, hnx, rfl⟩ := h
    exact hnx.symm

/-- Routing characterization of check_grade toward the retry loop: its
guard is exactly an irrelevant status together with a counter below 3,
evaluated on the values the closure reads from state. -/
theorem check_grade_eq_retrieve (s : AgentState) :
    check_grade s = .retrieve_knowledge ↔
      (get_grading_status s = some "irrelevant" ∧
        get_retrieval_retries s < 3) := by
  unfold check_grade
  simp [get_grading_status]

/-- Since grading_status never persists in the state, the grade node
always proceeds to reasoning. -/
theorem check_grade_eq_reason (s : AgentState) :
    check_grade s = .reason := by
  unfold check_grade
  simp [get_grading_status]

/-- check_grade routes to retrieval or reasoning only. -/
theorem check_grade_cases (s : AgentState) :
    check_grade s = .retrieve_knowledge ∨ check_grade s = .reason := by
  unfold check_grade; split <;> simp

/-- check_patient_id routes to retrieval, the fetch, or END only. -/
theorem check_patient_id_cases (s : AgentState) :
    check_patient_id s = some .retrieve_knowledge ∨
    check_patient_id s = some .fetch_data ∨
    check_patient_id s = none := by
  unfold check_patient_id; split
  · simp
  · split <;> simp

/-- check_tool_calls routes to the tool node or END only. -/
theorem check_tool_calls_cases (s : AgentState) :
    check_tool_calls s = some .tools ∨ check_tool_calls s = none := by
  unfold check_tool_calls
  cases s.messages.getLast? with
  | none => simp
  | some m => split <;> simp

/-- Completed runs only extend the transcript. -/
theorem runFrom_messages (o : CycleOracle) (fuel : Nat) (v : Visits)
    (n : Node) (s f : AgentState) (tr : List (Node × AgentState))
    (h : runFrom o fuel v n s = .done f tr) :
    ∃ t, f.messages = s.messages ++ t := by
  refine runFrom_rec o
    (fun _ s f _ => ∃ t, f.messages = s.messages ++ t) ?_ ?_ fuel v n s f tr h
  · intro v v' n s s1 hs
    exact stepNode_messages o v n s v' none s1 hs
  · intro v v' n n' s s1 f tr hs hP
    obtain ⟨t, ht⟩ := hP
    obtain ⟨t0, ht0⟩ := stepNode_messages o v n s v' (some n') s1 hs
    exact ⟨t0 ++ t, by rw [ht, ht0, List.append_assoc]⟩

/-- How one super-step treats the patient fields: a truthy id is never
lost, only triage can change the id, only the fetch can change the
cached record. -/
theorem stepNode_id_data (o : CycleOracle) (v : Visits) (n : Node)
    (s : AgentState) (v' : Visits) (nx : Option Node) (s1 : AgentState)
    (h : stepNode o v n s = .ok (v', nx, s1)) :
    (pyTruthy s.patient_id → pyTruthy s1.patient_id) ∧
    (n = .triage → s1.patient_data = s.patient_data) ∧
    (n = .fetch_data → s1.patient_id = s.patient_id) ∧
    (n ≠ .triage → n ≠ .fetch_data →
      s1.patient_id = s.patient_id ∧ s1.patient_data = s.patient_data) := by
  cases n <;> dsimp only [stepNode] at h
  case triage =>
    cases htr : o.triage with
    | error e => rw [htr] at h; simp [triage_node] at h
    | ok r =>
        rw [htr, triage_node_ok] at h
        simp only [Except.ok.injEq, Prod.mk.injEq] at h
        obtain ⟨-, -, rfl⟩ := h
        refine ⟨?_, by simp [applyUpdate], by simp, by simp⟩
        intro hid
        by_cases hr : pyTruthy r.patient_id <;>
          simp [applyUpdate, hr, hid]
  case fetch_data =>
    simp only [Except.ok.injEq, Prod.mk.injEq] at h
    obtain ⟨-, -, rfl⟩ := h
    unfold data_fetcher_node
    split <;>
      exact ⟨by simp [applyUpdate], by simp, by simp [applyUpdate], by simp⟩
  case retrieve_knowledge =>
    simp only [Except.ok.injEq, Prod.mk.injEq] at h
    obtain ⟨-, -, rfl⟩ := h
    rw [retrieval_node_eq]
    exact ⟨by simp [applyUpdate], by simp, by simp,
      fun _ _ => ⟨by simp [applyUpdate], by simp [applyUpdate]⟩⟩
  case grade_documents =>
    simp only [Except.ok.injEq, Prod.mk.injEq] at h
    obtain ⟨-, -, rfl⟩ := h
    have h1 : ((grader_node s (o.grade v.ngrade)).1).patient_id = none := by
      unfold grader_node
      by_cases hd : (s.retrieved_docs.getD []).isEmpty <;>
        cases o.grade v.ngrade <;> simp [hd]
    have h2 : ((grader_node s (o.grade v.ngrade)).1).patient_data = none := by
      unfold grader_node
      by_cases hd : (s.retrieved_docs.getD []).isEmpty <;>
        cases o.grade v.ngrade <;> simp [hd]
    exact ⟨by simp [applyUpdate, h1], by simp, by simp,
      fun _ _ => ⟨by simp [applyUpdate, h1], by simp [applyUpdate, h2]⟩⟩
  case reason =>
    unfold reasoning_node at h
    cases hd : s.retrieved_docs with
    | none => rw [hd] at h; simp at h
    | some l =>
        rw [hd] at h
        simp only [Except.ok.injEq, Prod.mk.injEq] at h
        obtain ⟨-, -, rfl⟩ := h
        exact ⟨by simp [applyUpdate], by simp, by simp,
          fun _ _ => ⟨by simp [applyUpdate], by simp [applyUpdate]⟩⟩
  case tools =>
    simp only [Except.ok.injEq, Prod.mk.injEq] at h
    obtain ⟨-, -, rfl⟩ := h
    exact ⟨by simp [applyUpdate, tool_node], by simp, by simp,
      fun _ _ => ⟨by simp [applyUpdate, tool_node],
        by simp [applyUpdate, tool_node]⟩⟩

/-- Routing to retrieval at the triage exit requires a cached record. -/
theorem check_patient_id_eq_retrieve (s : AgentState)
    (h : check_patient_id s = some .retrieve_knowledge) :
    pyTruthy s.patient_data := by
  unfold check_patient_id at h
  split at h
  next hc => exact hc
  next => split at h <;> simp_all

/-- Routing to the fetch at the triage exit requires a truthy id. -/
theorem check_patient_id_eq_fetch (s : AgentState)
    (h : check_patient_id s = some .fetch_data) :
    pyTruthy s.patient_id := by
  unfold check_patient_id at h
  split at h
  next => simp_all
  next => split at h <;> simp_all

theorem retrieveCount_cons_retrieve (s : AgentState)
    (tr : List (Node × AgentState)) :
    retrieveCount ((Node.retrieve_knowledge, s) :: tr) =
      retrieveCount tr + 1 := by
  simp [retrieveCount]

theorem retrieveCount_cons_other (n : Node) (s : AgentState)
    (tr : List (Node × AgentState)) (h : n ≠ Node.retrieve_knowledge) :
    retrieveCount ((n, s) :: tr) = retrieveCount tr := by
  simp [retrieveCount, h]

/-- Retrieval-visit count of completed runs: the grading status never
persists, so the grade node always routes forward and a run visits the
retrieval node at most once — exactly once from the retrieval or fetch
node, and from triage exactly when the trace reaches retrieval at
all. -/
theorem runFrom_count (o : CycleOracle) (fuel : Nat) (v : Visits)
    (n : Node) (s f : AgentState) (tr : List (Node × AgentState))
    (h : runFrom o fuel v n s = .done f tr) :
    (n = .retrieve_knowledge → retrieveCount tr = 1) ∧
    (n = .grade_documents → retrieveCount tr = 0) ∧
    ((n = .reason ∨ n = .tools) → retrieveCount tr = 0) ∧
    (n = .triage → retrieveCount tr ≤ 1 ∧
      (Node.retrieve_knowledge ∈ tr.map Prod.fst → retrieveCount tr = 1)) ∧
    (n = .fetch_data → retrieveCount tr = 1) := by
  refine runFrom_rec o (fun n s f tr =>
    (n = .retrieve_knowledge → retrieveCount tr = 1) ∧
    (n = .grade_documents → retrieveCount tr = 0) ∧
    ((n = .reason ∨ n = .tools) → retrieveCount tr = 0) ∧
    (n = .triage → retrieveCount tr ≤ 1 ∧
      (Node.retrieve_knowledge ∈ tr.map Prod.fst → retrieveCount tr = 1)) ∧
    (n = .fetch_data → retrieveCount tr = 1))
    ?_ ?_ fuel v n s f tr h
  · intro v v' n s s1 hs
    have hnx := stepNode_next o v n s v' none s1 hs
    cases n
    case retrieve_knowledge => rw [expectedNext] at hnx; cases hnx
    case grade_documents => rw [expectedNext] at hnx; cases hnx
    case tools => rw [expectedNext] at hnx; cases hnx
    case fetch_data => rw [expectedNext] at hnx; cases hnx
    case reason =>
      refine ⟨by simp, by simp, fun _ => ?_, by simp, by simp⟩
      simp [retrieveCount]
    case triage =>
      refine ⟨by simp, by simp, by simp, fun _ => ⟨?_, fun hmem => ?_⟩, by simp⟩
      · simp [retrieveCount]
      · simp at hmem
  · intro v v' n n' s s1 f tr hs hP
    rcases hP with ⟨hPret, hPgrade, hPrt, hPtri, hPfetch⟩
    have hnx := stepNode_next o v n s v' (some n') s1 hs
    cases n
    case retrieve_knowledge =>
      rw [expectedNext] at hnx
      injection hnx with hnx
      subst hnx
      refine ⟨fun _ => ?_, by simp, by simp, by simp, by simp⟩
      rw [retrieveCount_cons_retrieve, hPgrade rfl]
    case grade_documents =>
      rw [expectedNext] at hnx
      injection hnx with hnx
      subst hnx
      refine ⟨by simp, fun _ => ?_, by simp, by simp, by simp⟩
      rw [retrieveCount_cons_other _ _ _ (by simp)]
      exact hPrt (Or.inl (check_grade_eq_reason s1))
    case reason =>
      refine ⟨by simp, by simp, fun _ => ?_, by simp, by simp⟩
      rcases check_tool_calls_cases s1 with hc | hc <;>
        rw [expectedNext, hc] at hnx
      · injection hnx with hnx
        subst hnx
        rw [retrieveCount_cons_other _ _ _ (by simp)]
        exact hPrt (Or.inr rfl)
      · cases hnx
    case tools =>
      rw [expectedNext] at hnx
      injection hnx with hnx
      subst hnx
      refine ⟨by simp, by simp, fun _ => ?_, by simp, by simp⟩
      rw [retrieveCount_cons_other _ _ _ (by simp)]
      exact hPrt (Or.inl rfl)
    case triage =>
      refine ⟨by simp, by simp, by simp, fun _ => ?_, by simp⟩
      rcases check_patient_id_cases s1 with hc | hc | hc <;>
        rw [expectedNext, hc] at hnx
      · injection hnx with hnx
        subst hnx
        have h1 : retrieveCount ((Node.triage, s) :: tr) = 1 := by
          rw [retrieveCount_cons_other _ _ _ (by simp), hPret rfl]
        exact ⟨by omega, fun _ => h1⟩
      · injection hnx with hnx
        subst hnx
        have h1 : retrieveCount ((Node.triage, s) :: tr) = 1 := by
          rw [retrieveCount_cons_other _ _ _ (by simp), hPfetch rfl]
        exact ⟨by omega, fun _ => h1⟩
      · cases hnx
    case fetch_data =>
      rw [expectedNext] at hnx
      injection hnx with hnx
      subst hnx
      refine ⟨by simp, by simp, by simp, by simp, fun _ => ?_⟩
      rw [retrieveCount_cons_other _ _ _ (by simp), hPret rfl]

/-- Patient-id discipline of completed runs: from an entry node whose
guard holds, every fetch or retrieval visit in the trace happens with a
truthy patient id, and a cached record keeps implying a truthy id. -/
theorem runFrom_pid (o : CycleOracle) (fuel : Nat) (v : Visits)
    (n : Node) (s f : AgentState) (tr : List (Node × AgentState))
    (h : runFrom o fuel v n s = .done f tr)
    (hJ : pyTruthy s.patient_data → pyTruthy s.patient_id)
    (hG : (n = .fetch_data ∨ n = .retrieve_knowledge ∨ n = .grade_documents) →
      pyTruthy s.patient_id) :
    (∀ p ∈ tr, (p.1 = Node.fetch_data ∨ p.1 = Node.retrieve_knowledge) →
      pyTruthy p.2.patient_id) ∧
    (pyTruthy f.patient_data → pyTruthy f.patient_id) := by
  refine runFrom_rec o (fun n s f tr =>
    (pyTruthy s.patient_data → pyTruthy s.patient_id) →
    ((n = .fetch_data ∨ n = .retrieve_knowledge ∨ n = .grade_documents) →
      pyTruthy s.patient_id) →
    (∀ p ∈ tr, (p.1 = Node.fetch_data ∨ p.1 = Node.retrieve_knowledge) →
      pyTruthy p.2.patient_id) ∧
    (pyTruthy f.patient_data → pyTruthy f.patient_id))
    ?_ ?_ fuel v n s f tr h hJ hG
  · intro v v' n s s1 hs hJ hG
    have hnx := stepNode_next o v n s v' none s1 hs
    obtain ⟨hmono, hdata, hfid, hother⟩ := stepNode_id_data o v n s v' none s1 hs
    cases n
    case fetch_data => rw [expectedNext] at hnx; cases hnx
    case retrieve_knowledge => rw [expectedNext] at hnx; cases hnx
    case grade_documents => rw [expectedNext] at hnx; cases hnx
    case tools => rw [expectedNext] at hnx; cases hnx
    case triage =>
      refine ⟨?_, ?_⟩
      · intro p hp hkind
        simp at hp
        rw [hp] at hkind
        simp at hkind
      · intro hd
        rw [hdata rfl] at hd
        exact hmono (hJ hd)
    case reason =>
      obtain ⟨hid, hdt⟩ := hother (by simp) (by simp)
      refine ⟨?_, ?_⟩
      · intro p hp hkind
        simp at hp
        rw [hp] at hkind
        simp at hkind
      · intro hd
        rw [hdt] at hd
        exact hmono (hJ hd)
  · intro v v' n n' s s1 f tr hs hP hJ hG
    have hnx := stepNode_next o v n s v' (some n') s1 hs
    obtain ⟨hmono, hdata, hfid, hother⟩ := stepNode_id_data o v n s v' (some n') s1 hs
    cases n
    case triage =>
      have hJ1 : pyTruthy s1.patient_data → pyTruthy s1.patient_id := by
        intro hd
        rw [hdata rfl] at hd
        exact hmono (hJ hd)
      have hG1 : (n' = .fetch_data ∨ n' = .retrieve_knowledge ∨
          n' = .grade_documents) → pyTruthy s1.patient_id := by
        intro _
        rcases check_patient_id_cases s1 with hc | hc | hc <;>
          rw [expectedNext, hc] at hnx
        · cases hnx
          exact hJ1 (check_patient_id_eq_retrieve s1 hc)
        · cases hnx
          exact check_patient_id_eq_fetch s1 hc
        · cases hnx
      obtain ⟨htr, hJf⟩ := hP hJ1 hG1
      refine ⟨?_, hJf⟩
      intro p hp hkind
      rcases List.mem_cons.1 hp with rfl | hp
      · simp at hkind
      · exact htr p hp hkind
    case fetch_data =>
      have hid : pyTruthy s.patient_id := hG (Or.inl rfl)
      have hid1 : pyTruthy s1.patient_id := hmono hid
      rw [expectedNext] at hnx
      cases hnx
      obtain ⟨htr, hJf⟩ := hP (fun _ => hid1) (fun _ => hid1)
      refine ⟨?_, hJf⟩
      intro p hp hkind
      rcases List.mem_cons.1 hp with rfl | hp
      · exact hid
      · exact htr p hp hkind
    case retrieve_knowledge =>
      have hid : pyTruthy s.patient_id := hG (Or.inr (Or.inl rfl))
      have hid1 : pyTruthy s1.patient_id := hmono hid
      rw [expectedNext] at hnx
      cases hnx
      obtain ⟨htr, hJf⟩ := hP (fun _ => hid1) (fun _ => hid1)
      refine ⟨?_, hJf⟩
      intro p hp hkind
      rcases List.mem_cons.1 hp with rfl | hp
      · exact hid
      · exact htr p hp hkind
    case grade_documents =>
      have hid : pyTruthy s.patient_id := hG (Or.inr (Or.inr rfl))
      have hid1 : pyTruthy s1.patient_id := hmono hid
      rw [expectedNext] at hnx
      cases hnx
      obtain ⟨htr, hJf⟩ := hP (fun _ => hid1) (fun _ => hid1)
      refine ⟨?_, hJf⟩
      intro p hp hkind
      rcases List.mem_cons.1 hp with rfl | hp
      · simp at hkind
      · exact htr p hp hkind
    case reason =>
      obtain ⟨hid, hdt⟩ := hother (by simp) (by simp)
      have hJ1 : pyTruthy s1.patient_data → pyTruthy s1.patient_id := by
        intro hd
        rw [hdt] at hd
        exact hmono (hJ hd)
      rcases check_tool_calls_cases s1 with hc | hc <;>
        rw [expectedNext, hc] at hnx
      · cases hnx
        obtain ⟨htr, hJf⟩ := hP hJ1 (by simp)
        refine ⟨?_, hJf⟩
        intro p hp hkind
        rcases List.mem_cons.1 hp with rfl | hp
        · simp at hkind
        · exact htr p hp hkind
      · cases hnx
    case tools =>
      obtain ⟨hid, hdt⟩ := hother (by simp) (by simp)
      have hJ1 : pyTruthy s1.patient_data → pyTruthy s1.patient_id := by
        intro hd
        rw [hdt] at hd
        exact hmono (hJ hd)
      rw [expectedNext] at hnx
      cases hnx
      obtain ⟨htr, hJf⟩ := hP hJ1 (by simp)
      refine ⟨?_, hJf⟩
      intro p hp hkind
      rcases List.mem_cons.1 hp with rfl | hp
      · simp at hkind
      · exact htr p hp hkind

theorem startCycle_messages (s : AgentState) (m : Msg) :
    (startCycle s m).messages = s.messages ++ [m] := rfl

/-! ## Claim theorems -/

/-- C2: the Knowledge Retriever never issues the formulated query against
the index.  The call site passes the keyword condition_filter, which
VectorStore.search does not declare (its parameters are query and limit
only), so the bound call raises TypeError before the method body runs;
the node catches it and replaces retrieved_docs with the empty list, for
every state, every generated query, and every index content. -/
theorem C2_search_call_always_type_error
    (index : Option String → Nat → List Doc) (q fl : Option String)
    (s : AgentState) (qg : Except Unit QueryGenOut) :
    searchCall index q 4 fl = .error .typeError ∧
    (retrieval_node s qg index).retrieved_docs = some [] ∧
    (retrieval_node s qg index).search_query = some (qgQuery qg) ∧
    (retrieval_node s qg index).retrieval_retries =
      some (get_retrieval_retries s + 1) := by
  rw [retrieval_node_eq]
  exact ⟨rfl, rfl, rfl, rfl⟩

/-- C3: when the triage classification step raises, triage_node does not
complete the cycle with a needs-clarification outcome; its fallback path
reads the local variable intent, which the except block never assigned,
so the node itself raises UnboundLocalError and the turn aborts, for
every input state. -/
theorem C3_triage_error_propagates (s : AgentState) :
    triage_node s (.error ()) = .error .unboundLocal := rfl

/-- C5: a grading cycle with an empty retrieved passage set returns the
verdict irrelevant, its result is independent of the classifier oracle
(the classifier is not invoked, flag false), for every such state. -/
theorem C5_grader_empty_short_circuit (s : AgentState)
    (g : Except Unit Grade) (h : (s.retrieved_docs).getD [] = []) :
    (grader_node s g).1.grading_status = some "irrelevant" ∧
    (grader_node s g).2 = false ∧
    grader_node s g = grader_node s (.error ()) := by
  rw [grader_node_empty s g h, grader_node_empty s (.error ()) h]
  exact ⟨rfl, rfl, rfl⟩

theorem C5_witness :
    (((⟨[], none, none, some []⟩ : AgentState).retrieved_docs).getD [] = []) ∧
    (grader_node ⟨[], none, none, some []⟩
      (.ok ⟨true, "fine"⟩)).1.grading_status = some "irrelevant" :=
  ⟨rfl, (C5_grader_empty_short_circuit ⟨[], none, none, some []⟩
    (.ok ⟨true, "fine"⟩) rfl).1⟩

/-- C6: a grading cycle with a non-empty passage set whose classifier
call raises returns the verdict relevant (and does invoke the
classifier), instead of propagating the error — grader_node is total. -/
theorem C6_grader_error_defaults_relevant (s : AgentState)
    (h : (s.retrieved_docs).getD [] ≠ []) :
    (grader_node s (.error ())).1.grading_status = some "relevant" ∧
    (grader_node s (.error ())).2 = true := by
  unfold grader_node
  rw [if_neg (by simpa [List.isEmpty_iff] using h)]
  exact ⟨rfl, rfl⟩

theorem C6_witness :
    (((⟨[], none, none, some [⟨"text", "src", 1⟩]⟩ :
        AgentState).retrieved_docs).getD [] ≠ []) ∧
    (grader_node ⟨[], none, none, some [⟨"text", "src", 1⟩]⟩
      (.error ())).1.grading_status = some "relevant" :=
  ⟨by simp, (C6_grader_error_defaults_relevant _ (by simp)).1⟩

/-- C9: the record fetch concatenates the five section getters into the
fixed sectioned template for every patient id and every combination of
store responses (so it is total and never fails as a whole), and each
getter degrades a raising or non-200 query to its explanatory
placeholder string. -/
theorem C9_fetch_degrades_per_section (patient_id : String)
    (o : RecordOracle) (e : String) :
    fetch_patient_record patient_id o =
      renderRecord patient_id
        (get_patient_demographics patient_id o.demographics)
        (get_patient_labs o.labs)
        (get_patient_medications o.medsStatement o.medsRequest)
        (get_patient_conditions o.conditions)
        (get_patient_allergies o.allergies) ∧
    get_patient_demographics patient_id (.raised e) =
      "Connection failed: " ++ e ∧
    get_patient_demographics patient_id .notOk =
      "Error: Patient " ++ patient_id ++ " not found." ∧
    get_patient_labs (.raised e) = "Error fetching labs: " ++ e ∧
    get_patient_labs .notOk = "No lab results found." ∧
    get_patient_medications (.raised e) (.raised e) =
      "No active medications found on file." ∧
    get_patient_conditions (.raised e) = "Error fetching conditions: " ++ e ∧
    get_patient_conditions .notOk = "No conditions found." ∧
    get_patient_allergies (.raised e) = "Error fetching allergies: " ++ e ∧
    get_patient_allergies .notOk = "No allergies on file." :=
  ⟨rfl, rfl, rfl, rfl, rfl, rfl, rfl, rfl, rfl, rfl⟩

/-- C10: with fewer than two medications the drug-interaction tool
returns the fixed message immediately and issues zero network
requests. -/
theorem C10_interaction_short_circuit (medications : List String)
    (resolve : String → NetResp (Option String))
    (inter : NetResp (List (List InteractionPair)))
    (h : medications.length < 2) :
    check_drug_interactions medications resolve inter =
      ("No interaction check needed (less than 2 drugs).", 0) := by
  unfold check_drug_interactions
  rw [if_pos h]

theorem C10_witness :
    (["Aspirin"] : List String).length < 2 ∧
    check_drug_interactions ["Aspirin"] (fun _ => .raised "unreachable")
      (.raised "unreachable") =
      ("No interaction check needed (less than 2 drugs).", 0) :=
  ⟨by decide,
   C10_interaction_short_circuit ["Aspirin"] (fun _ => .raised "unreachable")
     (.raised "unreachable") (by decide)⟩

/-- C8: the transcript is append-only: every channel merge concatenates
the new turns after the existing ones (never replacing them), and any
completed cycle leaves the prior transcript as a prefix, so its length
never decreases across a cycle. -/
theorem C8_transcript_append_only :
    (∀ (s : AgentState) (u : StateUpdate),
      (applyUpdate s u).messages = s.messages ++ u.messages) ∧
    (∀ (o : CycleOracle) (fuel : Nat) (s : AgentState) (m : Msg)
       (f : AgentState) (tr : List (Node × AgentState)),
      runCycle o fuel s m = .done f tr →
      (∃ t, f.messages = s.messages ++ t) ∧
      s.messages.length ≤ f.messages.length) := by
  refine ⟨fun s u => rfl, fun o fuel s m f tr h => ?_⟩
  obtain ⟨t, ht⟩ := runFrom_messages o fuel {} .triage (startCycle s m) f tr h
  rw [startCycle_messages] at ht
  refine ⟨⟨[m] ++ t, by rw [ht, List.append_assoc]⟩, ?_⟩
  rw [ht]
  simp only [List.length_append]
  omega

theorem C8_witness :
    runCycle clarOracle 20 initState ⟨"user", "What should I do?", false⟩ =
      .done clarFinal (traceOf clarRun) ∧
    initState.messages.length ≤ clarFinal.messages.length := by
  have hdone : runCycle clarOracle 20 initState
      ⟨"user", "What should I do?", false⟩ =
      .done clarFinal (traceOf clarRun) := by rfl
  exact ⟨hdone, (C8_transcript_append_only.2 clarOracle 20 initState
    ⟨"user", "What should I do?", false⟩ clarFinal (traceOf clarRun)
    hdone).2⟩

/-- C1: the retrieval retry counter, as read from the session state,
never exceeds 3 — in fact it always reads 0: the key retrieval_retries
is not a declared channel, so the increments the retrieval node returns
are discarded and every state.get read yields the default.  The grade
node transitions back to retrieval only when the status read from state
is irrelevant and the counter read is strictly below 3 (the guard of
check_grade); since the grading status likewise never persists, the
guard never fires and the grade node always proceeds to the reasoning
node — forward progress regardless of verdict. -/
theorem C1_retry_bound_holds :
    (∀ s : AgentState, check_grade s = .retrieve_knowledge ↔
      (get_grading_status s = some "irrelevant" ∧
        get_retrieval_retries s < 3)) ∧
    (∀ s : AgentState, check_grade s = .reason) ∧
    (∀ (o : CycleOracle) (fuel : Nat) (s : AgentState) (m : Msg)
       (f : AgentState) (tr : List (Node × AgentState)),
      runCycle o fuel s m = .done f tr →
      get_retrieval_retries f = 0 ∧ get_retrieval_retries f ≤ 3) := by
  refine ⟨check_grade_eq_retrieve, check_grade_eq_reason, ?_⟩
  intro o fuel s m f tr h
  exact ⟨rfl, by simp [get_retrieval_retries]⟩

theorem C1_witness :
    runCycle demoOracle 20 initState demoUserMsg =
      .done demoFinal (traceOf demoRun) ∧
    get_retrieval_retries demoFinal = 0 ∧
    get_retrieval_retries demoFinal ≤ 3 := by
  have hdone : runCycle demoOracle 20 initState demoUserMsg =
      .done demoFinal (traceOf demoRun) := by rfl
  exact ⟨hdone, C1_retry_bound_holds.2.2 demoOracle 20 initState
    demoUserMsg demoFinal (traceOf demoRun) hdone⟩

/-- C4 (amended): the retry counter is never incremented in the session
state at all.  The retrieval node does return retrieval_retries = 0 + 1
in its update dict and the grader returns no such key, but the key is
not a declared channel, so the merge discards it together with the
other undeclared keys — a node update acts on the state exactly through
its declared channels.  Hence the counter reads 0 at every point, the
grading status never persists either, the grade node always routes
forward, and a completed cycle performs at most one retrieval (exactly
one whenever it retrieves at all); the claimed scenario of three
retrieval cycles with the counter at 2 when grading passes cannot
occur. -/
theorem C4_counter_never_persists_amended :
    (∀ (s : AgentState) (q : Except Unit QueryGenOut)
       (index : Option String → Nat → List Doc),
      (retrieval_node s q index).retrieval_retries =
        some (get_retrieval_retries s + 1)) ∧
    (∀ (s : AgentState) (g : Except Unit Grade),
      ((grader_node s g).1).retrieval_retries = none) ∧
    (∀ (s : AgentState) (u : StateUpdate),
      applyUpdate s u = applyUpdate s
        { messages := u.messages, patient_id := u.patient_id,
          patient_data := u.patient_data,
          retrieved_docs := u.retrieved_docs }) ∧
    (∀ s : AgentState,
      get_retrieval_retries s = 0 ∧ get_grading_status s = none) ∧
    (∀ (o : CycleOracle) (fuel : Nat) (s : AgentState) (m : Msg)
       (f : AgentState) (tr : List (Node × AgentState)),
      runCycle o fuel s m = .done f tr →
      retrieveCount tr ≤ 1 ∧
      (Node.retrieve_knowledge ∈ tr.map Prod.fst → retrieveCount tr = 1) ∧
      get_retrieval_retries f = 0) := by
  refine ⟨fun s q index => by rw [retrieval_node_eq], grader_node_retries,
    fun s u => rfl, fun s => ⟨rfl, rfl⟩, ?_⟩
  intro o fuel s m f tr h
  have hc := (runFrom_count o fuel {} .triage (startCycle s m) f tr
    h).2.2.2.1 rfl
  exact ⟨hc.1, hc.2, rfl⟩

theorem C4_witness :
    runCycle demoOracle 20 initState demoUserMsg =
      .done demoFinal (traceOf demoRun) ∧
    retrieveCount (traceOf demoRun) = 1 ∧
    get_retrieval_retries demoFinal = 0 := by
  have hdone : runCycle demoOracle 20 initState demoUserMsg =
      .done demoFinal (traceOf demoRun) := by rfl
  have h := C4_counter_never_persists_amended.2.2.2.2 demoOracle 20
    initState demoUserMsg demoFinal (traceOf demoRun) hdone
  exact ⟨hdone, h.2.1 (by decide), h.2.2⟩

/-- C4 counterexample: the concrete fresh cycle completes with trace
triage, fetch, retrieve, grade, reason; its transcript records an
irrelevant verdict (the grader found no documents), yet exactly one
retrieval occurred — not three — and the counter read from the final
state is 0: not incremented by the irrelevant verdict and not 2. -/
theorem C4_counterexample :
    isDone demoRun = true ∧
    traceNodes demoRun = [.triage, .fetch_data, .retrieve_knowledge,
      .grade_documents, .reason] ∧
    (⟨"system", "Grader: No documents found.", false⟩ : Msg) ∈
      finalMessages demoRun ∧
    retrieveCount (traceOf demoRun) = 1 ∧
    retrieveCount (traceOf demoRun) ≠ 3 ∧
    get_retrieval_retries demoFinal = 0 ∧
    get_retrieval_retries demoFinal ≠ 2 := by
  refine ⟨rfl, rfl, by decide, rfl, by decide, rfl, by decide⟩

/-- In every reachable session state, a cached record implies a truthy
patient id. -/
theorem reachable_data_implies_id (s : AgentState) (h : Reachable s) :
    pyTruthy s.patient_data → pyTruthy s.patient_id := by
  induction h with
  | init => intro hd; simp [initState, pyTruthy] at hd
  | cycle hs hrun ih =>
      exact (runFrom_pid _ _ _ _ _ _ _ hrun (fun hd => ih hd)
        (by intro hg; rcases hg with hg | hg | hg <;> simp at hg)).2

/-- C7 (amended): in every reachable execution the fetch and retrieval
nodes run only with a truthy (non-null, non-empty) patient id; and a
cycle whose triage resolves no id, over a state with no prior id and no
cached record, completes at the triage exit: the trace is [triage] (no
fetch, retrieval, grading, reasoning or tool node runs) and the
transcript gains exactly the user turn plus one triage-analysis system
turn — not a clarification request, which exists only in an unreachable
branch of the fetch node. -/
theorem C7_patient_gating_amended :
    (∀ s : AgentState, Reachable s →
      ∀ (o : CycleOracle) (fuel : Nat) (m : Msg) (f : AgentState)
        (tr : List (Node × AgentState)),
        runCycle o fuel s m = .done f tr →
        ∀ p ∈ tr, (p.1 = Node.fetch_data ∨ p.1 = Node.retrieve_knowledge) →
          pyTruthy p.2.patient_id) ∧
    (∀ (o : CycleOracle) (fuel : Nat) (s : AgentState) (m : Msg)
       (r : TriageOutput),
      o.triage = .ok r →
      pyTruthy r.patient_id = false →
      pyTruthy s.patient_id = false →
      pyTruthy s.patient_data = false →
      ∀ (f : AgentState) (tr : List (Node × AgentState)),
        runCycle o fuel s m = .done f tr →
        tr.map Prod.fst = [.triage] ∧
        f.messages = s.messages ++ [m,
          ⟨"system", "Triage Analysis: Intent=\x27" ++ r.intent ++
            "\x27. Patient ID=\x27" ++ pyShow r.patient_id ++ "\x27",
            false⟩] ∧
        f.patient_id = s.patient_id ∧
        f.patient_data = s.patient_data) := by
  constructor
  · intro s hs o fuel m f tr h
    exact (runFrom_pid o fuel {} .triage (startCycle s m) f tr h
      (fun hd => reachable_data_implies_id s hs hd)
      (by intro hg; rcases hg with hg | hg | hg <;> simp at hg)).1
  · intro o fuel s m r htr hrp hsp hsd f tr h
    cases fuel with
    | zero => simp [runCycle, runFrom] at h
    | succ fuel =>
        rw [runCycle, runFrom] at h
        dsimp only [stepNode] at h
        rw [htr, triage_node_ok] at h
        dsimp only at h
        have hcp : check_patient_id (applyUpdate (startCycle s m)
            { patient_id := some (if pyTruthy r.patient_id then r.patient_id
                                  else (startCycle s m).patient_id),
              triage_intent := some r.intent,
              messages := [⟨"system",
                "Triage Analysis: Intent=\x27" ++ r.intent ++
                  "\x27. Patient ID=\x27" ++ pyShow r.patient_id ++ "\x27",
                false⟩] }) = none := by
          unfold check_patient_id
          simp [applyUpdate, startCycle, hrp, hsp, hsd]
        rw [hcp] at h
        dsimp only at h
        simp only [RunResult.done.injEq] at h
        obtain ⟨rfl, rfl⟩ := h
        refine ⟨by simp, ?_, ?_, ?_⟩
        · simp [applyUpdate, startCycle, hrp]
        · simp [applyUpdate, startCycle, hrp]
        · simp [applyUpdate, startCycle]

theorem C7_witness :
    (∀ p ∈ traceOf demoRun,
      (p.1 = Node.fetch_data ∨ p.1 = Node.retrieve_knowledge) →
      pyTruthy p.2.patient_id) ∧
    traceNodes clarRun = [Node.triage] := by
  constructor
  · exact C7_patient_gating_amended.1 initState Reachable.init demoOracle 20
      demoUserMsg demoFinal (traceOf demoRun) (by rfl)
  · have h := C7_patient_gating_amended.2 clarOracle 20 initState
      ⟨"user", "What should I do?", false⟩ ⟨none, "General Review", true⟩
      rfl rfl rfl rfl clarFinal (traceOf clarRun) (by rfl)
    have h2 : traceNodes clarRun = (traceOf clarRun).map Prod.fst := rfl
    rw [h2, h.1]

/-- C7 counterexample: in the concrete no-patient cycle exactly one
agent turn is appended and it is the triage-analysis system message; no
turn in the final transcript is the clarification request the spec
describes (that text lives only in the unreachable falsy-id branch of
the fetch node). -/
theorem C7_counterexample :
    traceNodes clarRun = [Node.triage] ∧
    finalMessages clarRun =
      [⟨"user", "What should I do?", false⟩,
       ⟨"system",
        "Triage Analysis: Intent=\x27General Review\x27. Patient ID=\x27None\x27",
        false⟩] ∧
    (∀ mg ∈ finalMessages clarRun, mg.content ≠ clarificationRequestText) := by
  refine ⟨rfl, rfl, by decide⟩

end MedCopilot
